import Mathlib

/-!
Shallow embedding of the repository-collector pipeline of the resc-vcs-scraper
project, file `src/vcs_scraper/repository_collector/common.py`.

The Python code is stateful only through logging, the HTTP client and the
celery queue client.  Those external effects are modelled by an explicit
event trace (`Event`) and by outcome parameters (`post` for the single
`requests.post` of the active-repositories report, `send` for
`celery_client.send_task`).  A Python exception that propagates out of a
function is modelled by an `Except.error` result; an exception that is
caught by a `try`/`except` clause is handled inside the definition, exactly
where the source handles it.
-/

set_option autoImplicit false
set_option maxRecDepth 8192

namespace VcsScraper

/-- Distinguishable kinds of Python exceptions raised by the network calls.
`httpError` stands for `requests.exceptions.HTTPError`, `timeout` for
`requests.exceptions.Timeout`, `connectionError` for
`requests.exceptions.ConnectionError`; all three subclass
`requests.exceptions.RequestException`.  `otherError` stands for any
exception outside the `requests` hierarchy. -/
inductive Exc where
  | httpError
  | timeout
  | connectionError
  | otherError
  deriving DecidableEq, Repr

/-- Membership in the `requests.exceptions.HTTPError` class, the only class
caught by the `except` clause of the per-repository loop. -/
def Exc.isHTTPError : Exc → Bool
  | .httpError => true
  | _ => false

/-- Membership in the `requests.exceptions.RequestException` class, the class
caught by the `except` clause of `send_repository_id_to_backend`. -/
def Exc.isRequestException : Exc → Bool
  | .httpError => true
  | .timeout => true
  | .connectionError => true
  | .otherError => false

/-- The `id` field of a raw repository record as delivered by a VCS provider:
it may be an integer or a string, and the source applies Python `str` to it. -/
inductive RawId where
  | intId (n : Int)
  | strId (s : String)
  deriving DecidableEq, Repr

/-- Python `str` applied to a raw id value. -/
def RawId.toStr : RawId → String
  | .intId n => toString n
  | .strId s => s

/-- A raw repository record from the listing call.  The source reads exactly
two fields of each record: `repository["id"]` and `repository["name"]`. -/
structure RawRepository where
  id : RawId
  name : String
  deriving DecidableEq, Repr

/-- Modelled from the spec: the `SimpleRepository` model of
`vcs_scraper.model` (not under src).  Spec section 3: attributes id and
name, a lightweight projection used only for the active-repository report. -/
structure SimpleRepository where
  id : String
  name : String
  deriving DecidableEq, Repr

/-- Modelled from the spec: the `ActiveRepositories` model of
`vcs_scraper.model` (not under src).  Spec section 3: project key, VCS
instance name, ordered sequence of SimpleRepository.  Field order follows
the keyword order of the constructor call in the source. -/
structure ActiveRepositories where
  project_key : String
  repositories : List SimpleRepository
  vcs_instance_name : String
  deriving DecidableEq, Repr

/-- Modelled from the spec: the `Repository` task descriptor of
`vcs_scraper.model` (not under src).  Spec section 3: project key,
repository id, repository name, repository URL, VCS instance name, latest
commit hash (possibly absent), branch names. -/
structure Repository where
  project_key : String
  repository_id : String
  repository_name : String
  repository_url : String
  vcs_instance : String
  latest_commit : Option String
  branches : List String
  deriving DecidableEq, Repr

/-- Modelled from the spec: pydantic `model_dump_json` on the `Repository`
model (not under src), the structured-text serialization placed in the
queue message.  The exact text shape is irrelevant to the claims; it only
matters that the whole descriptor is serialized. -/
def Repository.model_dump_json (repository : Repository) : String :=
  "\x7b\"project_key\": \"" ++ repository.project_key ++
  "\", \"repository_id\": \"" ++ repository.repository_id ++
  "\", \"repository_name\": \"" ++ repository.repository_name ++
  "\", \"repository_url\": \"" ++ repository.repository_url ++
  "\", \"vcs_instance\": \"" ++ repository.vcs_instance ++
  "\", \"latest_commit\": " ++
    (match repository.latest_commit with
     | some c => "\"" ++ c ++ "\""
     | none => "null") ++
  ", \"branches\": [" ++
    String.intercalate ", " (repository.branches.map (fun b => "\"" ++ b ++ "\"")) ++
  "]\x7d"

/-- A message handed to `celery_client.send_task`: the task name, the target
queue, and the single keyword argument `repository` holding the serialized
task descriptor. -/
structure Msg where
  task_name : String
  queue : String
  repository_json : String
  deriving DecidableEq, Repr

/-- Observable external effects of one collection run, in the order they
happen.  `fetchAttempt` is a `get_latest_commit` call, `exportCall` an
`export_repository` call, `httpErrorLogged` the `logger.error` of the
`except` clause, `reportPosted` the `requests.post` of the
active-repositories report, `enqueue` a `celery_client.send_task` call. -/
inductive Event where
  | fetchAttempt (repository : RawRepository)
  | exportCall (repository : RawRepository) (latest_commit : Option String)
  | httpErrorLogged (repository : RawRepository)
  | reportPosted (body : ActiveRepositories)
  | enqueue (msg : Msg)
  deriving DecidableEq, Repr

/-- Is this event the posting of an active-repositories report? -/
def isReportPosted : Event → Bool
  | .reportPosted _ => true
  | _ => false

/-- Is this event a task enqueue? -/
def isEnqueue : Event → Bool
  | .enqueue _ => true
  | _ => false

/-- The duck-typed VCS connector as used by the source: `get_repos`,
`get_latest_commit` (called with the record name as repository id) and
`export_repository`.  Listing and commit fetch may raise; per the spec the
export is a pure transformation. -/
structure VcsClient where
  get_repos : String → Except Exc (List RawRepository)
  get_latest_commit : String → String → Except Exc (Option String)
  export_repository : RawRepository → Option String → String → Repository

/-- Python truthiness of the fetched `latest_commit` value, the condition
of the `if latest_commit:` test in the source: `None` and the empty string
are falsy. -/
def commitPresent : Option String → Bool
  | none => false
  | some c => !c.isEmpty

/-- Modelled from the spec: `SECRET_SCANNER_TASK_NAME` of
`vcs_scraper.constants` (not under src). -/
def SECRET_SCANNER_TASK_NAME : String := "secret_scanner.scan_repository"

/-- Modelled from the spec: `REPOSITORY_QUEUE` of `vcs_scraper.constants`
(not under src). -/
def REPOSITORY_QUEUE : String := "repositories"

/-- Line 82 of common.py: project every raw record to a `SimpleRepository`
whose id is `str(repo["id"])` and whose name is `repo["name"]`. -/
def extract_repository_id_and_name (repositories : List RawRepository) : List SimpleRepository :=
  repositories.map (fun repo => { id := repo.id.toStr, name := repo.name })

/-- The `ActiveRepositories` body built by `send_repository_id_to_backend`
for a given raw listing. -/
def reportBody (project_key vcs_instance_name : String) (repositories : List RawRepository) :
    ActiveRepositories :=
  { project_key := project_key
    repositories := extract_repository_id_and_name repositories
    vcs_instance_name := vcs_instance_name }

/-- The `ActiveRepositories` body as assembled inside
`send_repository_id_to_backend` from its own arguments. -/
def backendBody (repositories : List SimpleRepository) (vcs_instance_name project_key : String) :
    ActiveRepositories :=
  { project_key := project_key
    repositories := repositories
    vcs_instance_name := vcs_instance_name }

/-- Lines 85 to 101 of common.py: build the `ActiveRepositories` body, post
it and call `raise_for_status`; `post body` is the combined outcome of the
two (an `Except.error` is the raised exception).  The `except` clause
catches exactly `requests.exceptions.RequestException`, logs and returns
`None`. -/
def send_repository_id_to_backend (post : ActiveRepositories → Except Exc Unit)
    (repositories : List SimpleRepository) (vcs_instance_name : String) (project_key : String) :
    List Event × Except Exc Unit :=
  let body := backendBody repositories vcs_instance_name project_key
  match post body with
  | .ok _ => ([Event.reportPosted body], .ok ())
  | .error e =>
    if e.isRequestException then ([Event.reportPosted body], .ok ())
    else ([Event.reportPosted body], .error e)

/-- Lines 49 to 67 of common.py: the per-repository loop of
`extract_project_information`.  For each record, fetch the latest commit
and call `export_repository`; append the task when the commit is truthy.
The `try`/`except` clause catches only `requests.exceptions.HTTPError`;
any other exception propagates and aborts the loop. -/
def processRepositories (vcs_client : VcsClient) (project_key vcs_instance_name : String) :
    List RawRepository → List Event × Except Exc (List Repository)
  | [] => ([], .ok [])
  | repository :: rest =>
    match vcs_client.get_latest_commit project_key repository.name with
    | .error e =>
      if e.isHTTPError then
        let p := processRepositories vcs_client project_key vcs_instance_name rest
        (Event.fetchAttempt repository :: Event.httpErrorLogged repository :: p.1, p.2)
      else
        ([Event.fetchAttempt repository], .error e)
    | .ok latest_commit =>
      let task_parameters := vcs_client.export_repository repository latest_commit vcs_instance_name
      let p := processRepositories vcs_client project_key vcs_instance_name rest
      let evs := Event.fetchAttempt repository :: Event.exportCall repository latest_commit :: p.1
      match p.2 with
      | .error e => (evs, .error e)
      | .ok tasks =>
        (evs, .ok (if commitPresent latest_commit then task_parameters :: tasks else tasks))

/-- The task descriptor the loop produces for one record, if any: `some`
exactly when the commit fetch succeeds with a truthy commit. -/
def taskOf (vcs_client : VcsClient) (project_key vcs_instance_name : String)
    (repository : RawRepository) : Option Repository :=
  match vcs_client.get_latest_commit project_key repository.name with
  | .error _ => none
  | .ok latest_commit =>
    if commitPresent latest_commit then
      some (vcs_client.export_repository repository latest_commit vcs_instance_name)
    else none

/-- The events one record contributes to the trace when its fetch either
succeeds or raises a caught HTTP error. -/
def repoEvents (vcs_client : VcsClient) (project_key : String) (repository : RawRepository) :
    List Event :=
  match vcs_client.get_latest_commit project_key repository.name with
  | .error _ => [Event.fetchAttempt repository, Event.httpErrorLogged repository]
  | .ok latest_commit => [Event.fetchAttempt repository, Event.exportCall repository latest_commit]

/-- One record is isolated by the loop when its fetch succeeds or raises an
HTTP error (the only caught class). -/
def fetchIsolated (vcs_client : VcsClient) (project_key : String)
    (repository : RawRepository) : Bool :=
  match vcs_client.get_latest_commit project_key repository.name with
  | .ok _ => true
  | .error e => e.isHTTPError

/-- The per-repository loop runs to completion exactly when every record of
the listing is isolated. -/
def loopCompletes (vcs_client : VcsClient) (project_key : String)
    (listing : List RawRepository) : Bool :=
  listing.all (fetchIsolated vcs_client project_key)

/-- Lines 40 to 73 of common.py: list the repositories of the project, run
the per-repository loop, then send the active-repositories report built
from the full raw listing, and return the collected task list.  A failure
of the listing call, an uncaught loop exception, or an uncaught report
exception propagates. -/
def extract_project_information (vcs_client : VcsClient)
    (post : ActiveRepositories → Except Exc Unit) (project_key vcs_instance_name : String) :
    List Event × Except Exc (List Repository) :=
  match vcs_client.get_repos project_key with
  | .error e => ([], .error e)
  | .ok project_repositories =>
    let p := processRepositories vcs_client project_key vcs_instance_name project_repositories
    match p.2 with
    | .error e => (p.1, .error e)
    | .ok project_tasks =>
      let r := send_repository_id_to_backend post
        (extract_repository_id_and_name project_repositories) vcs_instance_name project_key
      match r.2 with
      | .error e => (p.1 ++ r.1, .error e)
      | .ok _ => (p.1 ++ r.1, .ok project_tasks)

/-- The message built for one task by `send_tasks_to_celery_queue`. -/
def mkMsg (task_name queue_name : String) (task : Repository) : Msg :=
  { task_name := task_name, queue := queue_name, repository_json := task.model_dump_json }

/-- Lines 76 to 78 of common.py: send one celery message per task, in list
order.  There is no `try`/`except` clause: the first `send_task` call that
raises aborts the loop and the exception propagates.  The first component
lists the attempted sends in order; the second is the propagated
exception, if any. -/
def send_tasks_to_celery_queue (send : Msg → Except Exc Unit)
    (task_name : String) (queue_name : String) :
    List Repository → List Msg × Option Exc
  | [] => ([], none)
  | task :: rest =>
    let msg := mkMsg task_name queue_name task
    match send msg with
    | .error e => ([msg], some e)
    | .ok _ =>
      let p := send_tasks_to_celery_queue send task_name queue_name rest
      (msg :: p.1, p.2)

/-- Lines 104 to 115 of common.py: the collection entry point.  Loading the
instance map and building the connector are external calls collapsed into
`getClient` (an `Except.error` is a raised `KeyError` or factory error).
Then extract, then dispatch the collected tasks. -/
def collect_repositories (getClient : Except Exc VcsClient)
    (post : ActiveRepositories → Except Exc Unit) (send : Msg → Except Exc Unit)
    (project_key vcs_instance_name : String) : List Event × Except Exc Unit :=
  match getClient with
  | .error e => ([], .error e)
  | .ok vcs_client =>
    let x := extract_project_information vcs_client post project_key vcs_instance_name
    match x.2 with
    | .error e => (x.1, .error e)
    | .ok project_tasks =>
      let p := send_tasks_to_celery_queue send SECRET_SCANNER_TASK_NAME REPOSITORY_QUEUE
        project_tasks
      (x.1 ++ p.1.map Event.enqueue,
       match p.2 with
       | some e => .error e
       | none => .ok ())

/-! ## Characterization lemmas -/

/-- When every record of the listing is isolated, the loop runs to
completion: its trace is the concatenation of the per-record events and its
result is the listing filtered through `taskOf`, in listing order. -/
theorem processRepositories_complete (vcs_client : VcsClient)
    (project_key vcs_instance_name : String) :
    ∀ listing : List RawRepository, loopCompletes vcs_client project_key listing = true →
      processRepositories vcs_client project_key vcs_instance_name listing =
        ((listing.map (repoEvents vcs_client project_key)).flatten,
          .ok (listing.filterMap (taskOf vcs_client project_key vcs_instance_name)))
  | [], _ => rfl
  | repository :: rest, h => by
    have hiso : fetchIsolated vcs_client project_key repository = true :=
      List.all_eq_true.mp h repository (List.mem_cons_self _ _)
    have hrest : loopCompletes vcs_client project_key rest = true :=
      List.all_eq_true.mpr fun x hx => List.all_eq_true.mp h x (List.mem_cons_of_mem _ hx)
    have ih := processRepositories_complete vcs_client project_key vcs_instance_name rest hrest
    cases hf : vcs_client.get_latest_commit project_key repository.name with
    | error e =>
      have hhttp : e.isHTTPError = true := by
        simpa [fetchIsolated, hf] using hiso
      simp [processRepositories, hf, hhttp, ih, repoEvents, taskOf]
    | ok latest_commit =>
      cases hc : commitPresent latest_commit with
      | false => simp [processRepositories, hf, ih, hc, repoEvents, taskOf]
      | true => simp [processRepositories, hf, ih, hc, repoEvents, taskOf]

/-- The report sender always posts exactly the body built from its
arguments, whatever the outcome of the post. -/
theorem send_repository_id_to_backend_trace (post : ActiveRepositories → Except Exc Unit)
    (repositories : List SimpleRepository) (vcs_instance_name project_key : String) :
    (send_repository_id_to_backend post repositories vcs_instance_name project_key).1 =
      [Event.reportPosted (backendBody repositories vcs_instance_name project_key)] := by
  unfold send_repository_id_to_backend
  cases hp : post (backendBody repositories vcs_instance_name project_key) with
  | ok _ => simp [hp]
  | error e => by_cases he : e.isRequestException = true <;> simp [hp, he]

/-- If the post raises inside the `requests` exception hierarchy, the report
sender swallows it and returns normally. -/
theorem send_repository_id_to_backend_swallow (post : ActiveRepositories → Except Exc Unit)
    (repositories : List SimpleRepository) (vcs_instance_name project_key : String) (e : Exc)
    (hfail : post (backendBody repositories vcs_instance_name project_key) = .error e)
    (he : e.isRequestException = true) :
    send_repository_id_to_backend post repositories vcs_instance_name project_key =
      ([Event.reportPosted (backendBody repositories vcs_instance_name project_key)],
        .ok ()) := by
  unfold send_repository_id_to_backend
  simp [hfail, he]

/-- If every exception the post can raise lies in the `requests` hierarchy,
the report sender returns normally. -/
theorem send_repository_id_to_backend_ok (post : ActiveRepositories → Except Exc Unit)
    (repositories : List SimpleRepository) (vcs_instance_name project_key : String)
    (hpost : ∀ e, post (backendBody repositories vcs_instance_name project_key) = .error e →
      e.isRequestException = true) :
    (send_repository_id_to_backend post repositories vcs_instance_name project_key).2 =
      .ok () := by
  unfold send_repository_id_to_backend
  cases hp : post (backendBody repositories vcs_instance_name project_key) with
  | ok _ => simp [hp]
  | error e => simp [hp, hpost e hp]

/-- The body built inside the report sender from the projected listing is
the report body of the listing. -/
theorem backendBody_projected (project_key vcs_instance_name : String)
    (listing : List RawRepository) :
    backendBody (extract_repository_id_and_name listing) vcs_instance_name project_key =
      reportBody project_key vcs_instance_name listing := rfl

/-- Full description of `extract_project_information` when the listing
succeeds, the loop completes and the report sender returns normally. -/
theorem extract_complete_eq (vcs_client : VcsClient)
    (post : ActiveRepositories → Except Exc Unit) (project_key vcs_instance_name : String)
    (listing : List RawRepository)
    (hlist : vcs_client.get_repos project_key = .ok listing)
    (hloop : loopCompletes vcs_client project_key listing = true)
    (hrep : (send_repository_id_to_backend post
        (extract_repository_id_and_name listing) vcs_instance_name project_key).2 = .ok ()) :
    extract_project_information vcs_client post project_key vcs_instance_name =
      ((listing.map (repoEvents vcs_client project_key)).flatten ++
          [Event.reportPosted (reportBody project_key vcs_instance_name listing)],
        .ok (listing.filterMap (taskOf vcs_client project_key vcs_instance_name))) := by
  have hp := processRepositories_complete vcs_client project_key vcs_instance_name listing hloop
  have htr := send_repository_id_to_backend_trace post
    (extract_repository_id_and_name listing) vcs_instance_name project_key
  rw [backendBody_projected] at htr
  simp only [extract_project_information, hlist, hp, hrep, htr]

/-- The trace of `extract_project_information` when the listing succeeds and
the loop completes, for any post outcome: the per-record events in listing
order followed by exactly the one report post. -/
theorem extract_trace_complete (vcs_client : VcsClient)
    (post : ActiveRepositories → Except Exc Unit) (project_key vcs_instance_name : String)
    (listing : List RawRepository)
    (hlist : vcs_client.get_repos project_key = .ok listing)
    (hloop : loopCompletes vcs_client project_key listing = true) :
    (extract_project_information vcs_client post project_key vcs_instance_name).1 =
      (listing.map (repoEvents vcs_client project_key)).flatten ++
        [Event.reportPosted (reportBody project_key vcs_instance_name listing)] := by
  have hp := processRepositories_complete vcs_client project_key vcs_instance_name listing hloop
  have htr := send_repository_id_to_backend_trace post
    (extract_repository_id_and_name listing) vcs_instance_name project_key
  rw [backendBody_projected] at htr
  cases hr : (send_repository_id_to_backend post
      (extract_repository_id_and_name listing) vcs_instance_name project_key).2 with
  | ok _ => simp only [extract_project_information, hlist, hp, hr, htr]
  | error e => simp only [extract_project_information, hlist, hp, hr, htr]

/-- Each record of the listing contributes its events to the complete
trace. -/
theorem repoEvents_sub_trace (vcs_client : VcsClient)
    (post : ActiveRepositories → Except Exc Unit) (project_key vcs_instance_name : String)
    (listing : List RawRepository) (repository : RawRepository)
    (hlist : vcs_client.get_repos project_key = .ok listing)
    (hloop : loopCompletes vcs_client project_key listing = true)
    (hr : repository ∈ listing) (ev : Event)
    (hev : ev ∈ repoEvents vcs_client project_key repository) :
    ev ∈ (extract_project_information vcs_client post project_key vcs_instance_name).1 := by
  rw [extract_trace_complete vcs_client post project_key vcs_instance_name listing hlist hloop]
  apply List.mem_append_left
  exact List.mem_flatten.mpr ⟨repoEvents vcs_client project_key repository,
    List.mem_map.mpr ⟨repository, hr, rfl⟩, hev⟩

/-- Per-record events are never report posts. -/
theorem countP_isReportPosted_repoEvents (vcs_client : VcsClient) (project_key : String)
    (repository : RawRepository) :
    (repoEvents vcs_client project_key repository).countP isReportPosted = 0 := by
  unfold repoEvents
  cases vcs_client.get_latest_commit project_key repository.name <;>
    simp [List.countP_cons, isReportPosted]

/-- The loop part of the trace contains no report post. -/
theorem countP_isReportPosted_flatten (vcs_client : VcsClient) (project_key : String) :
    ∀ listing : List RawRepository,
      ((listing.map (repoEvents vcs_client project_key)).flatten).countP isReportPosted = 0
  | [] => rfl
  | repository :: rest => by
    simp only [List.map_cons, List.flatten_cons, List.countP_append,
      countP_isReportPosted_repoEvents,
      countP_isReportPosted_flatten vcs_client project_key rest]

/-- When every send succeeds, the dispatcher attempts exactly one message
per task, in task order, and propagates nothing. -/
theorem send_tasks_all_ok (send : Msg → Except Exc Unit) (task_name queue_name : String) :
    ∀ tasks : List Repository,
      (∀ t ∈ tasks, send (mkMsg task_name queue_name t) = .ok ()) →
      send_tasks_to_celery_queue send task_name queue_name tasks =
        (tasks.map (mkMsg task_name queue_name), none)
  | [], _ => rfl
  | t :: rest, h => by
    have ht := h t (List.mem_cons_self _ _)
    have ih := send_tasks_all_ok send task_name queue_name rest
      (fun x hx => h x (List.mem_cons_of_mem _ hx))
    simp [send_tasks_to_celery_queue, ht, ih]

/-- The first failing send aborts the dispatch loop: the attempted messages
are exactly those up to and including the failing one, and the exception
propagates. -/
theorem send_tasks_abort (send : Msg → Except Exc Unit) (task_name queue_name : String)
    (e : Exc) (t : Repository) (rest : List Repository) :
    ∀ pre : List Repository,
      (∀ p ∈ pre, send (mkMsg task_name queue_name p) = .ok ()) →
      send (mkMsg task_name queue_name t) = .error e →
      send_tasks_to_celery_queue send task_name queue_name (pre ++ t :: rest) =
        ((pre ++ [t]).map (mkMsg task_name queue_name), some e)
  | [], _, hfail => by simp [send_tasks_to_celery_queue, hfail]
  | p :: ps, h, hfail => by
    have hp := h p (List.mem_cons_self _ _)
    have ih := send_tasks_abort send task_name queue_name e t rest ps
      (fun x hx => h x (List.mem_cons_of_mem _ hx)) hfail
    simp [send_tasks_to_celery_queue, hp, ih]

/-- The fetch-attempt event of a record is always among its events. -/
theorem fetchAttempt_mem_repoEvents (vcs_client : VcsClient) (project_key : String)
    (repository : RawRepository) :
    Event.fetchAttempt repository ∈ repoEvents vcs_client project_key repository := by
  unfold repoEvents
  cases vcs_client.get_latest_commit project_key repository.name <;> simp

/-! ## Concrete instances used by witnesses and counterexamples -/

/-- A raw record with an integer id, scenario repository A of the spec. -/
def rawA : RawRepository := { id := RawId.intId 1, name := "repoA" }

/-- A raw record with a string id, scenario repository B of the spec. -/
def rawB : RawRepository := { id := RawId.strId "b-42", name := "repoB" }

/-- A raw record with an integer id, scenario repository C of the spec. -/
def rawC : RawRepository := { id := RawId.intId 3, name := "repoC" }

/-- A concrete connector export satisfying the spec description: a pure
transformation of the raw record, the fetched commit and the instance
name. -/
def specExport (repository : RawRepository) (latest_commit : Option String)
    (vcs_instance_name : String) : Repository :=
  { project_key := "P1"
    repository_id := repository.id.toStr
    repository_name := repository.name
    repository_url := "https://vcs.example/" ++ repository.name
    vcs_instance := vcs_instance_name
    latest_commit := latest_commit
    branches := ["main"] }

/-- The scenario client of spec section 8: three repositories, A with
commit abc, B with no commits, C with commit def. -/
def scenarioClient : VcsClient :=
  { get_repos := fun _ => .ok [rawA, rawB, rawC]
    get_latest_commit := fun _ name =>
      if name = "repoA" then .ok (some "abc")
      else if name = "repoC" then .ok (some "def")
      else .ok none
    export_repository := specExport }

/-- A client whose first repository fetch raises a timeout, which is not an
HTTP error. -/
def timeoutClient : VcsClient :=
  { get_repos := fun _ => .ok [rawA, rawB]
    get_latest_commit := fun _ name =>
      if name = "repoA" then .error .timeout else .ok (some "f00d")
    export_repository := specExport }

/-- A client whose first repository fetch raises an HTTP error, the caught
class. -/
def httpErrClient : VcsClient :=
  { get_repos := fun _ => .ok [rawA, rawB, rawC]
    get_latest_commit := fun _ name =>
      if name = "repoA" then .error .httpError
      else if name = "repoC" then .ok (some "def")
      else .ok none
    export_repository := specExport }

/-- A client whose listing call itself raises. -/
def listingFailClient : VcsClient :=
  { get_repos := fun _ => .error .connectionError
    get_latest_commit := fun _ _ => .ok none
    export_repository := specExport }

/-- A backend post that always succeeds. -/
def postOk : ActiveRepositories → Except Exc Unit := fun _ => .ok ()

/-- A backend post that always raises a timeout. -/
def postFail : ActiveRepositories → Except Exc Unit := fun _ => .error Exc.timeout

/-- A celery send that always succeeds. -/
def sendOk : Msg → Except Exc Unit := fun _ => .ok ()

/-- A celery send that always raises a connection error. -/
def sendFail : Msg → Except Exc Unit := fun _ => .error Exc.connectionError

/-- The task descriptor the scenario produces for repository A. -/
def taskA : Repository := specExport rawA (some "abc") "vcs1"

/-- The task descriptor the scenario produces for repository C. -/
def taskC : Repository := specExport rawC (some "def") "vcs1"

/-- A celery send that raises exactly on the message of `taskC`. -/
def sendFailC : Msg → Except Exc Unit := fun m =>
  if m = mkMsg "scan" "q" taskC then .error Exc.connectionError else .ok ()

/-! ## Claims -/

/-- C1: for every repository of the listing whose fetched latest commit is
present, `extract_project_information` includes exactly one task
descriptor for it in its result (the listing filtered through `taskOf`, so
one entry per present-commit record, in listing order), and
`send_tasks_to_celery_queue` enqueues exactly one message per descriptor
carrying the serialized descriptor; under the spec-modelled connector
property that the export keeps the repository id and the given instance
name, every dispatched descriptor carries the identity of its source
record and the run vcs_instance_name. -/
theorem C1_one_message_per_present_commit_repository
    (vcs_client : VcsClient) (post : ActiveRepositories → Except Exc Unit)
    (send : Msg → Except Exc Unit) (project_key vcs_instance_name : String)
    (listing : List RawRepository)
    (hlist : vcs_client.get_repos project_key = .ok listing)
    (hloop : loopCompletes vcs_client project_key listing = true)
    (hpost : ∀ e, post (reportBody project_key vcs_instance_name listing) = .error e →
      e.isRequestException = true)
    (hsend : ∀ m, send m = .ok ())
    (hexp : ∀ repository latest_commit,
      (vcs_client.export_repository repository latest_commit vcs_instance_name).repository_id =
          repository.id.toStr ∧
        (vcs_client.export_repository repository latest_commit vcs_instance_name).vcs_instance =
          vcs_instance_name) :
    (extract_project_information vcs_client post project_key vcs_instance_name).2 =
      .ok (listing.filterMap (taskOf vcs_client project_key vcs_instance_name)) ∧
    send_tasks_to_celery_queue send SECRET_SCANNER_TASK_NAME REPOSITORY_QUEUE
        (listing.filterMap (taskOf vcs_client project_key vcs_instance_name)) =
      ((listing.filterMap (taskOf vcs_client project_key vcs_instance_name)).map
          (mkMsg SECRET_SCANNER_TASK_NAME REPOSITORY_QUEUE),
        none) ∧
    ∀ task ∈ listing.filterMap (taskOf vcs_client project_key vcs_instance_name),
      task.vcs_instance = vcs_instance_name ∧
      ∃ repository ∈ listing, ∃ latest_commit,
        vcs_client.get_latest_commit project_key repository.name = .ok latest_commit ∧
        commitPresent latest_commit = true ∧
        task = vcs_client.export_repository repository latest_commit vcs_instance_name ∧
        task.repository_id = repository.id.toStr := by
  have hrep := send_repository_id_to_backend_ok post (extract_repository_id_and_name listing)
    vcs_instance_name project_key hpost
  refine ⟨congrArg Prod.snd (extract_complete_eq vcs_client post project_key vcs_instance_name
      listing hlist hloop hrep),
    send_tasks_all_ok send _ _ _ (fun t _ => hsend _), ?_⟩
  intro task htask
  obtain ⟨repository, hmem, hf⟩ := List.mem_filterMap.mp htask
  cases hfetch : vcs_client.get_latest_commit project_key repository.name with
  | error e => simp [taskOf, hfetch] at hf
  | ok latest_commit =>
    cases hc : commitPresent latest_commit with
    | false => simp [taskOf, hfetch, hc] at hf
    | true =>
      simp only [taskOf, hfetch, hc, if_true, Option.some.injEq] at hf
      constructor
      · rw [← hf]
        exact (hexp repository latest_commit).2
      · exact ⟨repository, hmem, latest_commit, hfetch, hc, hf.symm,
          by rw [← hf]; exact (hexp repository latest_commit).1⟩

/-- C1 witness: the scenario run dispatches exactly the two messages for
repositories A and C, carrying their serialized descriptors with the run
instance name. -/
theorem C1_witness :
    (extract_project_information scenarioClient postOk "P1" "vcs1").2 = .ok [taskA, taskC] ∧
    send_tasks_to_celery_queue sendOk SECRET_SCANNER_TASK_NAME REPOSITORY_QUEUE
        [taskA, taskC] =
      ([mkMsg SECRET_SCANNER_TASK_NAME REPOSITORY_QUEUE taskA,
        mkMsg SECRET_SCANNER_TASK_NAME REPOSITORY_QUEUE taskC], none) ∧
    taskA.vcs_instance = "vcs1" ∧ taskC.vcs_instance = "vcs1" := by
  have h := C1_one_message_per_present_commit_repository scenarioClient postOk sendOk
    "P1" "vcs1" [rawA, rawB, rawC] rfl (by decide) (fun e hh => nomatch hh) (fun m => rfl)
    (fun repository latest_commit => ⟨rfl, rfl⟩)
  exact ⟨h.1, h.2.1, (h.2.2 taskA (by decide)).1, (h.2.2 taskC (by decide)).1⟩

/-- C2: a listed repository whose fetched latest commit is absent yields no
task descriptor, yet the active-repositories payload, built from the full
raw listing, is posted and contains the entry for that repository. -/
theorem C2_absent_commit_reported_not_dispatched
    (vcs_client : VcsClient) (post : ActiveRepositories → Except Exc Unit)
    (project_key vcs_instance_name : String) (listing : List RawRepository)
    (repository : RawRepository)
    (hlist : vcs_client.get_repos project_key = .ok listing)
    (hloop : loopCompletes vcs_client project_key listing = true)
    (hpost : ∀ e, post (reportBody project_key vcs_instance_name listing) = .error e →
      e.isRequestException = true)
    (hmem : repository ∈ listing)
    (habs : vcs_client.get_latest_commit project_key repository.name = .ok none) :
    taskOf vcs_client project_key vcs_instance_name repository = none ∧
    (extract_project_information vcs_client post project_key vcs_instance_name).2 =
      .ok (listing.filterMap (taskOf vcs_client project_key vcs_instance_name)) ∧
    Event.reportPosted (reportBody project_key vcs_instance_name listing) ∈
      (extract_project_information vcs_client post project_key vcs_instance_name).1 ∧
    (reportBody project_key vcs_instance_name listing).repositories =
      listing.map (fun repo => { id := repo.id.toStr, name := repo.name }) ∧
    ({ id := repository.id.toStr, name := repository.name } : SimpleRepository) ∈
      (reportBody project_key vcs_instance_name listing).repositories := by
  have hrep := send_repository_id_to_backend_ok post (extract_repository_id_and_name listing)
    vcs_instance_name project_key hpost
  refine ⟨?_, congrArg Prod.snd (extract_complete_eq vcs_client post project_key
      vcs_instance_name listing hlist hloop hrep), ?_, rfl, ?_⟩
  · simp [taskOf, habs, commitPresent]
  · rw [extract_trace_complete vcs_client post project_key vcs_instance_name listing hlist hloop]
    exact List.mem_append_right _ (List.mem_singleton.mpr rfl)
  · exact List.mem_map.mpr ⟨repository, hmem, rfl⟩

/-- C2 witness: in the scenario run, repository B (no commits) yields no
task but its entry appears in the posted payload. -/
theorem C2_witness :
    taskOf scenarioClient "P1" "vcs1" rawB = none ∧
    (extract_project_information scenarioClient postOk "P1" "vcs1").2 = .ok [taskA, taskC] ∧
    Event.reportPosted (reportBody "P1" "vcs1" [rawA, rawB, rawC]) ∈
      (extract_project_information scenarioClient postOk "P1" "vcs1").1 ∧
    (reportBody "P1" "vcs1" [rawA, rawB, rawC]).repositories =
      [{ id := "1", name := "repoA" }, { id := "b-42", name := "repoB" },
        { id := "3", name := "repoC" }] ∧
    ({ id := "b-42", name := "repoB" } : SimpleRepository) ∈
      (reportBody "P1" "vcs1" [rawA, rawB, rawC]).repositories := by
  have h := C2_absent_commit_reported_not_dispatched scenarioClient postOk "P1" "vcs1"
    [rawA, rawB, rawC] rawB rfl (by decide) (fun e hh => nomatch hh) (by decide) rfl
  exact ⟨h.1, h.2.1, h.2.2.1, by decide, h.2.2.2.2⟩

/-- C8: when the run completes, the task list returned by
`extract_project_information` is exactly the listing filtered through
`taskOf` (present-commit records mapped through the connector export), in
listing order with no resequencing. -/
theorem C8_result_mirrors_listing_order
    (vcs_client : VcsClient) (post : ActiveRepositories → Except Exc Unit)
    (project_key vcs_instance_name : String) (listing : List RawRepository)
    (hlist : vcs_client.get_repos project_key = .ok listing)
    (hloop : loopCompletes vcs_client project_key listing = true)
    (hpost : ∀ e, post (reportBody project_key vcs_instance_name listing) = .error e →
      e.isRequestException = true) :
    (extract_project_information vcs_client post project_key vcs_instance_name).2 =
      .ok (listing.filterMap (taskOf vcs_client project_key vcs_instance_name)) := by
  have hrep := send_repository_id_to_backend_ok post (extract_repository_id_and_name listing)
    vcs_instance_name project_key hpost
  exact congrArg Prod.snd (extract_complete_eq vcs_client post project_key vcs_instance_name
    listing hlist hloop hrep)

/-- C8 witness: the scenario result is the descriptors of A and C, in that
order. -/
theorem C8_witness :
    (extract_project_information scenarioClient postOk "P1" "vcs1").2 = .ok [taskA, taskC] :=
  C8_result_mirrors_listing_order scenarioClient postOk "P1" "vcs1" [rawA, rawB, rawC]
    rfl (by decide) (fun e hh => nomatch hh)

/-- C9: whenever a listed repository fetch succeeds, the connector export is
invoked with the fetched value, also when that value is absent; an absent
or empty commit still yields no task. -/
theorem C9_export_called_for_every_successful_fetch
    (vcs_client : VcsClient) (post : ActiveRepositories → Except Exc Unit)
    (project_key vcs_instance_name : String) (listing : List RawRepository)
    (repository : RawRepository) (latest_commit : Option String)
    (hlist : vcs_client.get_repos project_key = .ok listing)
    (hloop : loopCompletes vcs_client project_key listing = true)
    (hmem : repository ∈ listing)
    (hfetch : vcs_client.get_latest_commit project_key repository.name = .ok latest_commit) :
    Event.exportCall repository latest_commit ∈
      (extract_project_information vcs_client post project_key vcs_instance_name).1 ∧
    (commitPresent latest_commit = false →
      taskOf vcs_client project_key vcs_instance_name repository = none) := by
  constructor
  · apply repoEvents_sub_trace vcs_client post project_key vcs_instance_name listing repository
      hlist hloop hmem
    unfold repoEvents
    rw [hfetch]
    simp
  · intro hc
    simp [taskOf, hfetch, hc]

/-- C9 witness: in the scenario run the export is called for repository B
with an absent commit, and B yields no task. -/
theorem C9_witness :
    Event.exportCall rawB none ∈
      (extract_project_information scenarioClient postOk "P1" "vcs1").1 ∧
    (commitPresent none = false → taskOf scenarioClient "P1" "vcs1" rawB = none) :=
  C9_export_called_for_every_successful_fetch scenarioClient postOk "P1" "vcs1"
    [rawA, rawB, rawC] rawB none rfl (by decide) (by decide) rfl

/-- C3 counterexample: with a client whose first repository fetch raises a
timeout (a transport error that is a RequestException but not an HTTPError),
the loop does not continue: the run aborts with the timeout, the second
repository is never fetched, and no error-log event for the first
repository occurs. -/
theorem C3_counterexample :
    timeoutClient.get_latest_commit "P1" rawA.name = .error Exc.timeout ∧
    Exc.timeout.isRequestException = true ∧
    Exc.timeout.isHTTPError = false ∧
    (extract_project_information timeoutClient postOk "P1" "vcs1").2 = .error Exc.timeout ∧
    Event.fetchAttempt rawB ∉ (extract_project_information timeoutClient postOk "P1" "vcs1").1 ∧
    Event.httpErrorLogged rawA ∉
      (extract_project_information timeoutClient postOk "P1" "vcs1").1 :=
  ⟨rfl, rfl, rfl, rfl, by decide, by decide⟩

/-- C3 amended: only an HTTP error (`requests.exceptions.HTTPError`, the
sole class caught by the loop) is isolated: when every fetch outcome of the
listing is a success or an HTTP error and the fetch of repository R raises,
that error is an HTTP error, it is logged, R yields no task, every listed
repository is still fetched, and the run returns the filtered task list.
Any other transport error, such as a timeout, propagates and aborts the
batch. -/
theorem C3_amended_http_errors_isolated
    (vcs_client : VcsClient) (post : ActiveRepositories → Except Exc Unit)
    (project_key vcs_instance_name : String) (listing : List RawRepository)
    (repository : RawRepository) (e : Exc)
    (hlist : vcs_client.get_repos project_key = .ok listing)
    (hloop : loopCompletes vcs_client project_key listing = true)
    (hpost : ∀ e, post (reportBody project_key vcs_instance_name listing) = .error e →
      e.isRequestException = true)
    (hmem : repository ∈ listing)
    (hfetch : vcs_client.get_latest_commit project_key repository.name = .error e) :
    e.isHTTPError = true ∧
    Event.httpErrorLogged repository ∈
      (extract_project_information vcs_client post project_key vcs_instance_name).1 ∧
    taskOf vcs_client project_key vcs_instance_name repository = none ∧
    (∀ r ∈ listing, Event.fetchAttempt r ∈
      (extract_project_information vcs_client post project_key vcs_instance_name).1) ∧
    (extract_project_information vcs_client post project_key vcs_instance_name).2 =
      .ok (listing.filterMap (taskOf vcs_client project_key vcs_instance_name)) := by
  have hiso := List.all_eq_true.mp hloop repository hmem
  have hhttp : e.isHTTPError = true := by simpa [fetchIsolated, hfetch] using hiso
  have hrep := send_repository_id_to_backend_ok post (extract_repository_id_and_name listing)
    vcs_instance_name project_key hpost
  refine ⟨hhttp, ?_, ?_, ?_, congrArg Prod.snd (extract_complete_eq vcs_client post
    project_key vcs_instance_name listing hlist hloop hrep)⟩
  · apply repoEvents_sub_trace vcs_client post project_key vcs_instance_name listing repository
      hlist hloop hmem
    unfold repoEvents
    rw [hfetch]
    simp
  · simp [taskOf, hfetch]
  · intro r hr
    exact repoEvents_sub_trace vcs_client post project_key vcs_instance_name listing r
      hlist hloop hr _ (fetchAttempt_mem_repoEvents vcs_client project_key r)

/-- C3 amended witness: with an HTTP error on repository A, the run logs it,
fetches B and C anyway, and returns only the descriptor of C. -/
theorem C3_amended_witness :
    Exc.httpError.isHTTPError = true ∧
    Event.httpErrorLogged rawA ∈
      (extract_project_information httpErrClient postOk "P1" "vcs1").1 ∧
    taskOf httpErrClient "P1" "vcs1" rawA = none ∧
    Event.fetchAttempt rawB ∈
      (extract_project_information httpErrClient postOk "P1" "vcs1").1 ∧
    Event.fetchAttempt rawC ∈
      (extract_project_information httpErrClient postOk "P1" "vcs1").1 ∧
    (extract_project_information httpErrClient postOk "P1" "vcs1").2 = .ok [taskC] := by
  have h := C3_amended_http_errors_isolated httpErrClient postOk "P1" "vcs1"
    [rawA, rawB, rawC] rawA Exc.httpError rfl (by decide) (fun e hh => nomatch hh)
    (by decide) rfl
  exact ⟨h.1, h.2.1, h.2.2.1, h.2.2.2.1 rawB (by decide), h.2.2.2.1 rawC (by decide),
    h.2.2.2.2⟩

/-- C4 counterexample: a run whose listing call succeeds but whose first
repository fetch raises a timeout sends no active-repositories report at
all: the claim as stated fails for such a run. -/
theorem C4_counterexample :
    timeoutClient.get_repos "P1" = .ok [rawA, rawB] ∧
    (extract_project_information timeoutClient postOk "P1" "vcs1").1.countP isReportPosted = 0 ∧
    (extract_project_information timeoutClient postOk "P1" "vcs1").2 = .error Exc.timeout :=
  ⟨rfl, rfl, rfl⟩

/-- C4 amended: every run in which the listing call succeeds and the
per-repository loop completes (every fetch outcome is a success or an HTTP
error) posts exactly one active-repositories report, after the loop events,
regardless of how many tasks were produced; a fetch failure outside the
HTTP-error class aborts the run before any report. -/
theorem C4_amended_one_report_after_completed_loop
    (vcs_client : VcsClient) (post : ActiveRepositories → Except Exc Unit)
    (project_key vcs_instance_name : String) (listing : List RawRepository)
    (hlist : vcs_client.get_repos project_key = .ok listing)
    (hloop : loopCompletes vcs_client project_key listing = true) :
    (extract_project_information vcs_client post project_key vcs_instance_name).1 =
      (listing.map (repoEvents vcs_client project_key)).flatten ++
        [Event.reportPosted (reportBody project_key vcs_instance_name listing)] ∧
    (extract_project_information vcs_client post project_key vcs_instance_name).1.countP
        isReportPosted = 1 := by
  have ht := extract_trace_complete vcs_client post project_key vcs_instance_name listing
    hlist hloop
  refine ⟨ht, ?_⟩
  rw [ht, List.countP_append, countP_isReportPosted_flatten]
  simp [List.countP_cons, isReportPosted]

/-- C4 amended witness: the scenario run posts exactly one report, after the
loop events. -/
theorem C4_amended_witness :
    (extract_project_information scenarioClient postOk "P1" "vcs1").1 =
      ([rawA, rawB, rawC].map (repoEvents scenarioClient "P1")).flatten ++
        [Event.reportPosted (reportBody "P1" "vcs1" [rawA, rawB, rawC])] ∧
    (extract_project_information scenarioClient postOk "P1" "vcs1").1.countP
        isReportPosted = 1 :=
  C4_amended_one_report_after_completed_loop scenarioClient postOk "P1" "vcs1"
    [rawA, rawB, rawC] rfl (by decide)

/-- C5 counterexample: the dispatch loop has no per-task error isolation:
when sending the first task raises, the second task is never attempted. -/
theorem C5_counterexample :
    sendFail (mkMsg "scan" "q" taskA) = .error Exc.connectionError ∧
    (send_tasks_to_celery_queue sendFail "scan" "q" [taskA, taskC]).1 =
      [mkMsg "scan" "q" taskA] ∧
    mkMsg "scan" "q" taskC ∉
      (send_tasks_to_celery_queue sendFail "scan" "q" [taskA, taskC]).1 :=
  ⟨rfl, rfl, by decide⟩

/-- C5 amended: enqueues are attempted sequentially in task order and the
first failing enqueue aborts the loop: the attempted messages are exactly
those up to and including the failing one, and its exception propagates, so
tasks after the failure are not attempted. -/
theorem C5_amended_dispatch_aborts_at_first_failure
    (send : Msg → Except Exc Unit) (task_name queue_name : String) (e : Exc)
    (t : Repository) (pre rest : List Repository)
    (hpre : ∀ p ∈ pre, send (mkMsg task_name queue_name p) = .ok ())
    (hfail : send (mkMsg task_name queue_name t) = .error e) :
    send_tasks_to_celery_queue send task_name queue_name (pre ++ t :: rest) =
      ((pre ++ [t]).map (mkMsg task_name queue_name), some e) :=
  send_tasks_abort send task_name queue_name e t rest pre hpre hfail

/-- C5 amended witness: with a send that fails exactly on the message of
`taskC`, dispatching `[taskA, taskC, taskA]` attempts the first two
messages only and propagates the connection error. -/
theorem C5_amended_witness :
    (∀ p ∈ [taskA], sendFailC (mkMsg "scan" "q" p) = .ok ()) ∧
    sendFailC (mkMsg "scan" "q" taskC) = .error Exc.connectionError ∧
    send_tasks_to_celery_queue sendFailC "scan" "q" ([taskA] ++ taskC :: [taskA]) =
      (([taskA] ++ [taskC]).map (mkMsg "scan" "q"), some Exc.connectionError) := by
  have hpre : ∀ p ∈ [taskA], sendFailC (mkMsg "scan" "q" p) = .ok () := by
    intro p hp
    rw [List.mem_singleton.mp hp]
    rfl
  have hfail : sendFailC (mkMsg "scan" "q" taskC) = .error Exc.connectionError := rfl
  exact ⟨hpre, hfail, C5_amended_dispatch_aborts_at_first_failure sendFailC "scan" "q"
    Exc.connectionError taskC [taskA] [taskA] hpre hfail⟩

/-- C6: when the listing call raises, the run aborts with that error: the
extractor returns it, the collection entry point propagates it, and the
trace holds no report post and no enqueue. -/
theorem C6_listing_failure_aborts_run
    (vcs_client : VcsClient) (post : ActiveRepositories → Except Exc Unit)
    (send : Msg → Except Exc Unit) (project_key vcs_instance_name : String) (e : Exc)
    (hlist : vcs_client.get_repos project_key = .error e) :
    extract_project_information vcs_client post project_key vcs_instance_name =
      ([], .error e) ∧
    collect_repositories (.ok vcs_client) post send project_key vcs_instance_name =
      ([], .error e) ∧
    (collect_repositories (.ok vcs_client) post send project_key
        vcs_instance_name).1.countP isReportPosted = 0 ∧
    (collect_repositories (.ok vcs_client) post send project_key
        vcs_instance_name).1.countP isEnqueue = 0 := by
  have hex : extract_project_information vcs_client post project_key vcs_instance_name =
      ([], .error e) := by
    simp only [extract_project_information, hlist]
  have hcol : collect_repositories (.ok vcs_client) post send project_key vcs_instance_name =
      ([], .error e) := by
    simp only [collect_repositories, hex]
  exact ⟨hex, hcol, by rw [hcol]; rfl, by rw [hcol]; rfl⟩

/-- C6 witness: with a failing listing call, the run aborts and neither a
report nor an enqueue happens. -/
theorem C6_witness :
    extract_project_information listingFailClient postOk "P1" "vcs1" =
      ([], .error Exc.connectionError) ∧
    collect_repositories (.ok listingFailClient) postOk sendOk "P1" "vcs1" =
      ([], .error Exc.connectionError) ∧
    (collect_repositories (.ok listingFailClient) postOk sendOk "P1"
        "vcs1").1.countP isReportPosted = 0 ∧
    (collect_repositories (.ok listingFailClient) postOk sendOk "P1"
        "vcs1").1.countP isEnqueue = 0 :=
  C6_listing_failure_aborts_run listingFailClient postOk sendOk "P1" "vcs1"
    Exc.connectionError rfl

/-- C7: when delivering the report raises any error of the `requests`
hierarchy (transport errors and the HTTP error raised for a non-2xx
response alike), `send_repository_id_to_backend` returns normally after the
post attempt, and a completed extraction run still returns its task list. -/
theorem C7_report_delivery_failure_swallowed
    (post : ActiveRepositories → Except Exc Unit) (repositories : List SimpleRepository)
    (vcs_instance_name project_key : String) (e : Exc)
    (hfail : post (backendBody repositories vcs_instance_name project_key) = .error e)
    (he : e.isRequestException = true) :
    send_repository_id_to_backend post repositories vcs_instance_name project_key =
      ([Event.reportPosted (backendBody repositories vcs_instance_name project_key)],
        .ok ()) ∧
    ∀ (vcs_client : VcsClient) (listing : List RawRepository),
      vcs_client.get_repos project_key = .ok listing →
      loopCompletes vcs_client project_key listing = true →
      extract_repository_id_and_name listing = repositories →
      (extract_project_information vcs_client post project_key vcs_instance_name).2 =
        .ok (listing.filterMap (taskOf vcs_client project_key vcs_instance_name)) := by
  refine ⟨send_repository_id_to_backend_swallow post repositories vcs_instance_name
    project_key e hfail he, ?_⟩
  intro vcs_client listing hlist hloop hproj
  have hrep : (send_repository_id_to_backend post (extract_repository_id_and_name listing)
      vcs_instance_name project_key).2 = .ok () := by
    rw [hproj, send_repository_id_to_backend_swallow post repositories vcs_instance_name
      project_key e hfail he]
  exact congrArg Prod.snd (extract_complete_eq vcs_client post project_key vcs_instance_name
    listing hlist hloop hrep)

/-- C7 witness: with a post that always times out, the report sender still
returns normally and the scenario run still returns its two descriptors. -/
theorem C7_witness :
    send_repository_id_to_backend postFail
        (extract_repository_id_and_name [rawA, rawB, rawC]) "vcs1" "P1" =
      ([Event.reportPosted (reportBody "P1" "vcs1" [rawA, rawB, rawC])], .ok ()) ∧
    (extract_project_information scenarioClient postFail "P1" "vcs1").2 =
      .ok [taskA, taskC] := by
  have h := C7_report_delivery_failure_swallowed postFail
    (extract_repository_id_and_name [rawA, rawB, rawC]) "vcs1" "P1" Exc.timeout rfl rfl
  exact ⟨h.1, h.2 scenarioClient [rawA, rawB, rawC] rfl (by decide) rfl⟩

/-- C10: in the posted active-repositories payload, each entry id is the
string conversion of the raw record id field (whatever its original type)
and each entry name is the raw name field verbatim, in listing order. -/
theorem C10_payload_entries_project_raw_records
    (vcs_client : VcsClient) (post : ActiveRepositories → Except Exc Unit)
    (project_key vcs_instance_name : String) (listing : List RawRepository)
    (hlist : vcs_client.get_repos project_key = .ok listing)
    (hloop : loopCompletes vcs_client project_key listing = true) :
    Event.reportPosted (reportBody project_key vcs_instance_name listing) ∈
      (extract_project_information vcs_client post project_key vcs_instance_name).1 ∧
    (reportBody project_key vcs_instance_name listing).repositories.length =
      listing.length ∧
    ∀ (i : Nat) (repository : RawRepository), listing[i]? = some repository →
      (reportBody project_key vcs_instance_name listing).repositories[i]? =
        some { id := repository.id.toStr, name := repository.name } := by
  refine ⟨?_, List.length_map _ _, ?_⟩
  · rw [extract_trace_complete vcs_client post project_key vcs_instance_name listing
      hlist hloop]
    exact List.mem_append_right _ (List.mem_singleton.mpr rfl)
  · intro i repository hi
    show (listing.map fun repo =>
      ({ id := repo.id.toStr, name := repo.name } : SimpleRepository))[i]? = _
    rw [List.getElem?_map, hi]
    rfl

/-- C10 witness: the scenario payload holds the three entries, with the
integer ids converted to strings and the string id taken verbatim. -/
theorem C10_witness :
    Event.reportPosted (reportBody "P1" "vcs1" [rawA, rawB, rawC]) ∈
      (extract_project_information scenarioClient postOk "P1" "vcs1").1 ∧
    (reportBody "P1" "vcs1" [rawA, rawB, rawC]).repositories.length = 3 ∧
    (reportBody "P1" "vcs1" [rawA, rawB, rawC]).repositories[0]? =
      some { id := "1", name := "repoA" } ∧
    (reportBody "P1" "vcs1" [rawA, rawB, rawC]).repositories[1]? =
      some { id := "b-42", name := "repoB" } ∧
    (reportBody "P1" "vcs1" [rawA, rawB, rawC]).repositories[2]? =
      some { id := "3", name := "repoC" } := by
  have h := C10_payload_entries_project_raw_records scenarioClient postOk "P1" "vcs1"
    [rawA, rawB, rawC] rfl (by decide)
  exact ⟨h.1, h.2.1, h.2.2 0 rawA rfl, h.2.2 1 rawB rfl, h.2.2 2 rawC rfl⟩

end VcsScraper
